import Mathlib

/-!
Shallow embedding of the Attack Detection & Incident Response Engine of the
elastic-workflow-workshop repository, together with proofs checking the
natural-language specification against it.

The embedding follows the Python source:
  * `app/routers/businesses.py` (`get_business_stats`),
  * `app/routers/incidents.py` (`resolve_incident`, `detect_attacks`),
  * `app/services/incident_service.py` (`IncidentService`),
  * `app/models/incident.py`, `app/models/business.py` (data model).

Floating-point values (ratings, velocities, trends) are modelled as rationals;
timestamps as natural numbers (seconds).  The Elasticsearch store is modelled
as an explicit record of document lists; a missing incidents index is the
`none` case, mirroring `index_not_found_exception` handling in the source.
-/

namespace ReviewWorkshop

/-- Status of an incident, from `IncidentStatus` in `app/models/incident.py`. -/
inductive IncidentStatus where
  | detected
  | investigating
  | confirmed
  | mitigated
  | resolved
  | false_positive
deriving DecidableEq, Repr

/-- Severity of an incident, from `IncidentSeverity` in `app/models/incident.py`. -/
inductive IncidentSeverity where
  | low
  | medium
  | high
  | critical
deriving DecidableEq, Repr

/-- Rank used to compare severities: LOW < MEDIUM < HIGH < CRITICAL. -/
def severityRank : IncidentSeverity → Nat
  | .low => 0
  | .medium => 1
  | .high => 2
  | .critical => 3

/-- `BusinessStats` from `app/models/business.py`: the metrics snapshot
computed per evaluation.  Ratings and velocities are rationals. -/
structure BusinessStats where
  business_id : String
  name : String
  total_reviews : Nat
  average_rating : ℚ
  recent_review_count : Nat
  recent_average_rating : ℚ
  rating_trend : ℚ
  review_velocity : ℚ
  suspicious_review_count : Nat
  is_under_attack : Bool
deriving DecidableEq, Repr

/-- The attack verdict expression, as written identically in
`get_business_stats` (`app/routers/businesses.py`) and `detect_attacks`
(`app/routers/incidents.py`):
`recent_review_count >= 5 and (rating_trend < -1.0 or review_velocity > 2.0
 or suspicious_count > 3)`. -/
def is_under_attack (recent_review_count : Nat) (rating_trend review_velocity : ℚ)
    (suspicious_count : Nat) : Bool :=
  decide (recent_review_count ≥ 5) &&
    (decide (rating_trend < -1) || decide (review_velocity > 2) || decide (suspicious_count > 3))

/-- `IncidentService.determine_severity` from
`app/services/incident_service.py`, verbatim branch structure. -/
def determine_severity (stats : BusinessStats) : IncidentSeverity :=
  if stats.review_velocity > 5 ∨ stats.recent_review_count > 20 then
    .critical
  else if stats.review_velocity > 3 ∨ stats.recent_review_count > 10 ∨
      stats.rating_trend < -2 then
    .high
  else if stats.recent_review_count ≥ 5 ∨ stats.suspicious_review_count > 3 then
    .medium
  else
    .low

/-- Python `round`-to-integer (half-to-even), used to model `round(x, 2)`. -/
def roundHalfEven (q : ℚ) : ℤ :=
  let f : ℤ := q.floor
  if q - f < 1/2 then f
  else if q - f > 1/2 then f + 1
  else if f % 2 = 0 then f else f + 1

/-- Python `round(x, 2)` on rationals. -/
def round2 (q : ℚ) : ℚ := (roundHalfEven (q * 100) : ℚ) / 100

/-- Python `round(x, 1)` rendered as a string, modelling the `:.1f` format
used in `_build_incident_description` (only applied to non-negative values
there). -/
def fmt1 (q : ℚ) : String :=
  let n : ℤ := roundHalfEven (q * 10)
  let sign := if n < 0 then "-" else ""
  let m := n.natAbs
  sign ++ toString (m / 10) ++ "." ++ toString (m % 10)

/-- `IncidentMetrics` from `app/models/incident.py` (field defaults as in the
pydantic model). -/
structure IncidentMetrics where
  review_count : Nat := 0
  unique_attackers : Nat := 0
  average_rating : ℚ := 0
  rating_drop : ℚ := 0
  attack_duration_minutes : Nat := 0
  reviews_per_minute : ℚ := 0
deriving DecidableEq, Repr

/-- `Incident` from `app/models/incident.py`, restricted to the fields the
engine reads or writes.  `last_updated` and `response_executed_at` are the
extra wire fields written by `update_incident_metrics` and
`execute_response_actions`. -/
structure Incident where
  incident_id : String
  business_id : String
  business_name : String
  status : IncidentStatus := .detected
  severity : IncidentSeverity := .medium
  detected_at : Nat
  resolved_at : Option Nat := none
  description : String := ""
  metrics : IncidentMetrics := {}
  resolution : Option String := none
  response_actions : List String := []
  last_updated : Option Nat := none
  response_executed_at : Option Nat := none
deriving DecidableEq, Repr

/-- The business document fields touched by the engine
(`app/models/business.py`). -/
structure Business where
  business_id : String
  name : String
  rating_protected : Bool := false
  protection_reason : Option String := none
  protected_since : Option Nat := none
deriving DecidableEq, Repr

/-- A review document: the fields queried or mutated by the engine. -/
structure Review where
  review_id : String
  business_id : String
  date : Nat
  stars : ℚ
  is_simulated : Bool := false
  status : String := "published"
  held_at : Option Nat := none
  hold_reason : Option String := none
deriving DecidableEq, Repr

/-- The Elasticsearch store: the three indices the engine touches.  A missing
incidents index (never yet provisioned) is `none`; searching it raises
`index_not_found_exception`. -/
structure Store where
  incidents : Option (List Incident)
  businesses : List Business
  reviews : List Review
deriving DecidableEq, Repr

/-- Errors surfaced by the store, as the service code distinguishes them. -/
inductive EsError where
  | index_not_found
  | other (msg : String)
deriving DecidableEq, Repr

/-- The open statuses listed in the dedup query of
`check_existing_open_incident`: detected, investigating, confirmed,
mitigated. -/
def isOpenStatus : IncidentStatus → Bool
  | .detected => true
  | .investigating => true
  | .confirmed => true
  | .mitigated => true
  | _ => false

/-- The dedup search: open incidents of the business, sorted by `detected_at`
descending, `size=1` — i.e. a most-recent open incident, if any. -/
def findOpenIncident (docs : List Incident) (business_id : String) : Option Incident :=
  let hits := docs.filter (fun d => d.business_id == business_id && isOpenStatus d.status)
  hits.foldl (fun acc d =>
    match acc with
    | none => some d
    | some b => if b.detected_at < d.detected_at then some d else some b) none

/-- Searching the incidents index: `index_not_found_exception` when it was
never provisioned. -/
def searchIncidents (store : Store) : Except EsError (List Incident) :=
  match store.incidents with
  | none => .error .index_not_found
  | some docs => .ok docs

/-- `IncidentService.check_existing_open_incident`: runs the dedup search and
catches `index_not_found_exception` as "no open incident"; every other
search failure is re-raised.  The search outcome is passed in explicitly so
that both the deterministic store path and a failing store can be
examined. -/
def check_existing_open_incident (searchResult : Except EsError (List Incident))
    (business_id : String) : Except EsError (Option Incident) :=
  match searchResult with
  | .ok docs => .ok (findOpenIncident docs business_id)
  | .error .index_not_found => .ok none
  | .error e => .error e

/-- Map a function over the incident documents; a missing index is left
untouched (the corresponding `es.update` call sites swallow the failure). -/
def mapIncidents (store : Store) (f : Incident → Incident) : Store :=
  match store.incidents with
  | none => store
  | some docs => { store with incidents := some (docs.map f) }

/-- `IncidentService.update_incident_metrics`: partial-document update of the
incident — the four metrics keys present in the update are overwritten (the
keys absent from the partial document, `unique_attackers` and
`attack_duration_minutes`, are merged in unchanged, per Elasticsearch
partial-update semantics) and `last_updated` is stamped.  Failures are
silently ignored, so a missing index or document leaves the store as is.
`refreshMetrics` is the metrics part of that partial document. -/
def refreshMetrics (m : IncidentMetrics) (stats : BusinessStats) : IncidentMetrics :=
  { m with
      review_count := stats.recent_review_count
      average_rating := stats.recent_average_rating
      rating_drop := if stats.rating_trend < 0 then |stats.rating_trend| else 0
      reviews_per_minute := round2 (stats.review_velocity / 60) }

def update_incident_metrics (store : Store) (incident_id : String)
    (stats : BusinessStats) (now : Nat) : Store :=
  mapIncidents store (fun d =>
    if d.incident_id == incident_id then
      { d with
          metrics := refreshMetrics d.metrics stats
          last_updated := some now }
    else d)

/-- The `IncidentMetrics(...)` construction inside
`create_incident_from_attack`. -/
def incidentMetricsOfStats (stats : BusinessStats) : IncidentMetrics :=
  { review_count := stats.recent_review_count
    unique_attackers := stats.suspicious_review_count
    average_rating := stats.recent_average_rating
    rating_drop := if stats.rating_trend < 0 then |stats.rating_trend| else 0
    attack_duration_minutes := 0
    reviews_per_minute := round2 (stats.review_velocity / 60) }

/-- `IncidentService._build_incident_description`. -/
def buildIncidentDescription (stats : BusinessStats) (auto_created : Bool) : String :=
  let p1 : List String :=
    [if auto_created then "Automatically detected review fraud attack."
     else "Review fraud attack detected."]
  let p2 := p1 ++ ["Business \x27" ++ stats.name ++ "\x27 received " ++
    toString stats.recent_review_count ++ " reviews recently."]
  let p3 := if stats.rating_trend < 0 then
      p2 ++ ["Rating dropped by " ++ fmt1 |stats.rating_trend| ++ " points."]
    else p2
  let p4 := if stats.review_velocity > 0 then
      p3 ++ ["Review velocity: " ++ fmt1 stats.review_velocity ++ " reviews/hour."]
    else p3
  let p5 := if stats.suspicious_review_count > 0 then
      p4 ++ ["Suspicious reviews detected: " ++
        toString stats.suspicious_review_count ++ "."]
    else p4
  String.intercalate " " p5

/-- The `Incident(...)` object built by `create_incident_from_attack` for a
fresh incident: status `detected`, `detected_at = now`, severity from
`determine_severity`, metrics and description from the snapshot. -/
def mkIncidentFromStats (stats : BusinessStats) (incident_id : String) (now : Nat)
    (auto_created : Bool) : Incident :=
  { incident_id := incident_id
    business_id := stats.business_id
    business_name := stats.name
    status := .detected
    severity := determine_severity stats
    detected_at := now
    description := buildIncidentDescription stats auto_created
    metrics := incidentMetricsOfStats stats
    response_actions := if auto_created then ["Auto-detected by monitoring system"] else [] }

/-- `es.index(id=incident_id, ...)` on the incidents index: upsert by
document id; the index is provisioned if missing (in the source, via the
`index_not_found_exception` handler that calls `_ensure_incidents_index` and
retries once). -/
def indexIncident (store : Store) (inc : Incident) : Store :=
  let docs := store.incidents.getD []
  let docs1 :=
    if docs.any (fun d => d.incident_id == inc.incident_id) then
      docs.map (fun d => if d.incident_id == inc.incident_id then inc else d)
    else docs ++ [inc]
  { store with incidents := some docs1 }

/-- `IncidentService.create_incident_from_attack`: dedup check first; on an
existing open incident only the metrics are refreshed and `None` is
returned; otherwise a fresh incident is built and indexed (provisioning the
index if needed) and returned.  A non-`index_not_found` failure of the dedup
search propagates. -/
def create_incident_from_attack (store : Store) (stats : BusinessStats) (now : Nat)
    (incident_id : String) (auto_created : Bool) :
    Except EsError (Store × Option Incident) :=
  match check_existing_open_incident (searchIncidents store) stats.business_id with
  | .error e => .error e
  | .ok (some existing) =>
      .ok (update_incident_metrics store existing.incident_id stats now, none)
  | .ok none =>
      let incident := mkIncidentFromStats stats incident_id now auto_created
      .ok (indexIncident store incident, some incident)

/-- `IncidentService.protect_business`: updates the business document with
`rating_protected=True`, a protection reason, and `protected_since = now` —
unconditionally, also when the business is already protected.  A failing
update (e.g. missing document) is caught and reported as `False`. -/
def protect_business (store : Store) (business_id : String) (now : Nat) :
    Store × Bool :=
  if store.businesses.any (fun b => b.business_id == business_id) then
    ({ store with businesses := store.businesses.map (fun b =>
        if b.business_id == business_id then
          { b with
              rating_protected := true
              protection_reason := some "review_fraud_detected"
              protected_since := some now }
        else b) }, true)
  else (store, false)

/-- The query of `hold_suspicious_reviews`: `must` business, date within the
window, `stars ≤ 2`.  The `should: is_simulated` clause adds no constraint
(with a `must` present it only affects scoring), and there is no status
filter, so the query matches held reviews again. -/
def holdQueryMatches (r : Review) (business_id : String) (cutoff : Nat) : Bool :=
  r.business_id == business_id && cutoff ≤ r.date && r.stars ≤ 2

/-- The script of the `update_by_query`: set `status`, `held_at`,
`hold_reason` on a review. -/
def holdStamp (now : Nat) (r : Review) : Review :=
  { r with
      status := "held"
      held_at := some now
      hold_reason := some "review_fraud_detected" }

/-- `IncidentService.hold_suspicious_reviews`: `update_by_query` applying
`holdStamp` to every matching review; returns the number of updated
documents. -/
def hold_suspicious_reviews (store : Store) (business_id : String) (now : Nat)
    (hours : Nat) : Store × Nat :=
  let cutoff := now - hours * 3600
  let updated := store.reviews.countP (fun r => holdQueryMatches r business_id cutoff)
  ({ store with reviews := store.reviews.map (fun r =>
      if holdQueryMatches r business_id cutoff then holdStamp now r else r) },
   updated)

/-- The dictionary returned by `execute_response_actions`. -/
structure ResponseSummary where
  business_protected : Bool
  reviews_held : Nat
  actions : List String
deriving DecidableEq, Repr

/-- `IncidentService.execute_response_actions`: protect the business, hold
suspicious reviews (default 1h window), then write `response_actions` (this
run's tags) and `response_executed_at` onto the incident, ignoring a failing
incident update. -/
def execute_response_actions (store : Store) (business_id incident_id : String)
    (now : Nat) : Store × ResponseSummary :=
  let pr := protect_business store business_id now
  let acts1 : List String := if pr.2 then ["business_protected"] else []
  let hr := hold_suspicious_reviews pr.1 business_id now 1
  let held_count := hr.2
  let actions_taken := acts1 ++
    (if 0 < held_count then ["held_" ++ toString held_count ++ "_reviews"] else [])
  let store3 := mapIncidents hr.1 (fun d =>
    if d.incident_id == incident_id then
      { d with
          response_actions := actions_taken
          response_executed_at := some now }
    else d)
  (store3,
   { business_protected := actions_taken.contains "business_protected"
     reviews_held := held_count
     actions := actions_taken })

/-- HTTP-level failures of the incidents router. -/
inductive ApiError where
  | notFound (msg : String)
  | serverError (msg : String)
deriving DecidableEq, Repr

/-- `get_incident` from `app/routers/incidents.py`: fetch by document id
(incident documents are indexed with `id=incident_id`); a missing document is
a 404, a missing index surfaces as a 500. -/
def get_incident (store : Store) (incident_id : String) : Except ApiError Incident :=
  match store.incidents with
  | none => .error (.serverError "index_not_found")
  | some docs =>
      match docs.find? (fun d => d.incident_id == incident_id) with
      | some d => .ok d
      | none => .error (.notFound ("Incident " ++ incident_id ++ " not found"))

/-- `resolve_incident` from `app/routers/incidents.py`: fetch the incident,
set `status=resolved`, `resolved_at=now`, `resolution` (defaulting to
"resolved"), and write exactly those three fields back. -/
def resolve_incident (store : Store) (incident_id : String)
    (resolution_data : Option String) (now : Nat) :
    Except ApiError (Store × Incident) :=
  match get_incident store incident_id with
  | .error e => .error e
  | .ok incident =>
      let res := resolution_data.getD "resolved"
      let store1 := mapIncidents store (fun d =>
        if d.incident_id == incident_id then
          { d with
              status := .resolved
              resolved_at := some now
              resolution := some res }
        else d)
      .ok (store1,
        { incident with
            status := .resolved
            resolved_at := some now
            resolution := some res })

/-- All reviews of one business (the all-time aggregation). -/
def reviewsFor (store : Store) (business_id : String) : List Review :=
  store.reviews.filter (fun r => r.business_id == business_id)

/-- Average of the `stars` field; the Elasticsearch `avg` aggregation yields
`null` over zero documents, which both call sites coerce to `0`. -/
def avgStars (rs : List Review) : ℚ :=
  if rs.isEmpty then 0 else (rs.map (fun r => r.stars)).sum / rs.length

/-- The metrics computation shared by `get_business_stats`
(`app/routers/businesses.py`) and the per-business body of `detect_attacks`
(`app/routers/incidents.py`): all-time and windowed aggregations, trend and
velocity, and the attack verdict.  Display fields are rounded to two
decimals, but the verdict is computed on the unrounded values. -/
def computeBusinessStats (store : Store) (business_id name : String)
    (now hours : Nat) : BusinessStats :=
  let all := reviewsFor store business_id
  let cutoff := now - hours * 3600
  let recent := all.filter (fun r => cutoff ≤ r.date)
  let total_reviews := all.length
  let average_rating := avgStars all
  let recent_review_count := recent.length
  let recent_average_rating := avgStars recent
  let suspicious_count := recent.countP (fun r => r.is_simulated)
  let rating_trend :=
    if 0 < recent_review_count then recent_average_rating - average_rating else 0
  let review_velocity :=
    if 0 < hours then (recent_review_count : ℚ) / hours else 0
  { business_id := business_id
    name := name
    total_reviews := total_reviews
    average_rating := round2 average_rating
    recent_review_count := recent_review_count
    recent_average_rating := round2 recent_average_rating
    rating_trend := round2 rating_trend
    review_velocity := round2 review_velocity
    suspicious_review_count := suspicious_count
    is_under_attack :=
      is_under_attack recent_review_count rating_trend review_velocity suspicious_count }

/-- The business lookup (`term` query, `size=1`) in `detect_attacks`. -/
def findBusiness (store : Store) (business_id : String) : Option Business :=
  store.businesses.find? (fun b => b.business_id == business_id)

/-- One entry of the `detected_attacks` list of the sweep report. -/
structure DetectedAttack where
  business_id : String
  business_name : String
  review_count : Nat
  rating_trend : ℚ
  review_velocity : ℚ
  suspicious_count : Nat
  response_actions : Option ResponseSummary := none
  existing_incident_id : Option String := none
deriving DecidableEq, Repr

/-- One entry of the `created_incidents` list of the sweep report. -/
structure CreatedIncident where
  incident_id : String
  business_id : String
  business_name : String
  severity : IncidentSeverity
  response_actions : ResponseSummary
deriving DecidableEq, Repr

/-- The dictionary returned by the `detect_attacks` endpoint. -/
structure SweepReport where
  success : Bool
  businesses_checked : Nat
  attacks_detected : Nat
  incidents_created : Nat
  detected_attacks : List DetectedAttack
  created_incidents : List CreatedIncident
deriving DecidableEq, Repr

/-- Accumulator of the per-business loop of `detect_attacks`. -/
structure SweepState where
  store : Store
  detected : List DetectedAttack
  created : List CreatedIncident
deriving DecidableEq, Repr

/-- The body of the per-business loop of `detect_attacks`.  The whole body
runs under a `try` whose `except` clause is `continue`, so a failing
business is skipped; `fails` injects such a failure at the business-info
query (the first external call of the body).  A business with no document is
skipped via `continue` as well.  `mkId` supplies the generated incident id
for a creation on this business. -/
def evalOneBusiness (fails : String → Bool) (mkId : String → String)
    (now hours : Nat) (st : SweepState) (bid : String) : SweepState :=
  if fails bid then st
  else
    match findBusiness st.store bid with
    | none => st
    | some biz =>
        let stats := computeBusinessStats st.store bid biz.name now hours
        if stats.is_under_attack then
          let entry : DetectedAttack :=
            { business_id := bid
              business_name := biz.name
              review_count := stats.recent_review_count
              rating_trend := stats.rating_trend
              review_velocity := stats.review_velocity
              suspicious_count := stats.suspicious_review_count }
          let detected1 := st.detected ++ [entry]
          match create_incident_from_attack st.store stats now (mkId bid) true with
          | .error _ => { st with detected := detected1 }
          | .ok (store1, some inc) =>
              let er := execute_response_actions store1 bid inc.incident_id now
              { store := er.1
                detected := detected1
                created := st.created ++
                  [{ incident_id := inc.incident_id
                     business_id := inc.business_id
                     business_name := inc.business_name
                     severity := inc.severity
                     response_actions := er.2 }] }
          | .ok (store1, none) =>
              match check_existing_open_incident (searchIncidents store1) bid with
              | .ok (some existing) =>
                  let er := execute_response_actions store1 bid existing.incident_id now
                  { store := er.1
                    detected := st.detected ++
                      [{ entry with
                          response_actions := some er.2
                          existing_incident_id := some existing.incident_id }]
                    created := st.created }
              | _ => { st with store := store1, detected := detected1 }
        else st

/-- The `detect_attacks` endpoint of `app/routers/incidents.py`, from the
point where the candidate list is known: evaluate every candidate in order,
each under its own `try/except: continue`, then assemble the report.
`businesses_checked` is the length of the whole candidate list, including
skipped and failed candidates. -/
def detect_attacks (store : Store) (businesses_to_check : List String)
    (now hours : Nat) (fails : String → Bool) (mkId : String → String) :
    Store × SweepReport :=
  let final := businesses_to_check.foldl (evalOneBusiness fails mkId now hours)
    { store := store, detected := [], created := [] }
  (final.store,
   { success := true
     businesses_checked := businesses_to_check.length
     attacks_detected := final.detected.length
     incidents_created := final.created.length
     detected_attacks := final.detected
     created_incidents := final.created })

/-- The incident document after a metrics refresh of a previously created
incident: only `metrics` and `last_updated` differ from the created
document. -/
def updatedIncidentDoc (stats stats2 : BusinessStats) (id1 : String)
    (now1 now2 : Nat) : Incident :=
  { mkIncidentFromStats stats id1 now1 true with
      metrics := refreshMetrics (mkIncidentFromStats stats id1 now1 true).metrics stats2
      last_updated := some now2 }

/-! Concrete fixtures used by counterexamples and witnesses. -/

/-- The concrete attack snapshot of the spec's scenario for business B1:
8 recent one-star reviews in one hour, 6 flagged simulated. -/
def statsB1 : BusinessStats :=
  { business_id := "b1"
    name := "B1"
    total_reviews := 108
    average_rating := 9/2
    recent_review_count := 8
    recent_average_rating := 1
    rating_trend := -7/2
    review_velocity := 8
    suspicious_review_count := 6
    is_under_attack := true }

/-- A store whose incidents index exists but is empty. -/
def storeEmptyIncidents : Store :=
  { incidents := some [], businesses := [], reviews := [] }

/-- Low-velocity variant of `statsB1` for the monotonicity witness. -/
def statsB1slow : BusinessStats := { statsB1 with review_velocity := 3 }

/-- An incident that is already resolved. -/
def incC5 : Incident :=
  { incident_id := "inc_1"
    business_id := "b1"
    business_name := "B"
    status := .resolved
    severity := .high
    detected_at := 100
    resolved_at := some 200
    resolution := some "confirmed_attack" }

/-- Store holding only the already-resolved incident. -/
def storeC5 : Store := { incidents := some [incC5], businesses := [], reviews := [] }

/-- A review that is already in held status, stamped at time 5000. -/
def heldReviewC4 : Review :=
  { review_id := "r1"
    business_id := "b1"
    date := 7000
    stars := 1
    is_simulated := true
    status := "held"
    held_at := some 5000
    hold_reason := some "review_fraud_detected" }

/-- Store holding only the already-held review. -/
def storeC4 : Store := { incidents := none, businesses := [], reviews := [heldReviewC4] }

/-- An open incident carrying the creation-time response_actions entry. -/
def incC6 : Incident :=
  { incident_id := "inc_1"
    business_id := "b1"
    business_name := "B"
    status := .detected
    severity := .critical
    detected_at := 100
    response_actions := ["Auto-detected by monitoring system"] }

/-- Store with that incident and its business, and no reviews. -/
def storeC6 : Store :=
  { incidents := some [incC6]
    businesses := [{ business_id := "b1", name := "B" }]
    reviews := [] }

/-- A business that is already rating-protected since time 1000. -/
def bizC9 : Business :=
  { business_id := "b1"
    name := "B"
    rating_protected := true
    protection_reason := some "review_fraud_detected"
    protected_since := some 1000 }

/-- Store holding only the already-protected business. -/
def storeC9 : Store := { incidents := none, businesses := [bizC9], reviews := [] }

/-- A review taking part in the concrete attack on business "B" used by the
sweep counterexample: recent, one star, simulated. -/
def mkAttackReview (rid : String) : Review :=
  { review_id := rid
    business_id := "B"
    date := 7000
    stars := 1
    is_simulated := true }

/-- Sweep fixture: business "B" with six fresh one-star reviews (an attack),
an empty incidents index, and no business document for candidate "A". -/
def storeC8 : Store :=
  { incidents := some []
    businesses := [{ business_id := "B", name := "BizB" }]
    reviews := ["r1", "r2", "r3", "r4", "r5", "r6"].map mkAttackReview }

/-- C1: the attack classifier returns `is_under_attack = true` iff
`recent_review_count ≥ 5` and at least one of `rating_trend < -1.0`,
`review_velocity > 2.0`, `suspicious_review_count > 3` holds; in particular
any snapshot with `recent_review_count = 0` yields a `false` verdict
regardless of every other field. -/
theorem is_under_attack_iff (c : Nat) (t v : ℚ) (s : Nat) :
    (is_under_attack c t v s = true ↔ (5 ≤ c ∧ (t < -1 ∨ 2 < v ∨ 3 < s))) ∧
    (c = 0 → is_under_attack c t v s = false) := by
  constructor
  · simp only [is_under_attack, Bool.and_eq_true, Bool.or_eq_true, decide_eq_true_eq]
    tauto
  · rintro rfl
    simp [is_under_attack]

/-- Witness for `is_under_attack_iff` at a concrete snapshot with an empty
recent window. -/
theorem is_under_attack_iff_witness : is_under_attack 0 (-5) 100 50 = false :=
  (is_under_attack_iff 0 (-5) 100 50).2 rfl

/-- C3: `determine_severity` checks its conditions in priority order with the
first match winning — CRITICAL on `review_velocity > 5 ∨ recent_review_count
> 20`; else HIGH on `review_velocity > 3 ∨ recent_review_count > 10 ∨
rating_trend < -2`; else MEDIUM on `recent_review_count ≥ 5 ∨
suspicious_review_count > 3`; else LOW — and it is total: exactly one of the
four severities is returned for every input. -/
theorem determine_severity_priority (stats : BusinessStats) :
    (determine_severity stats = .critical ↔
      (5 < stats.review_velocity ∨ 20 < stats.recent_review_count)) ∧
    (determine_severity stats = .high ↔
      (¬(5 < stats.review_velocity ∨ 20 < stats.recent_review_count) ∧
        (3 < stats.review_velocity ∨ 10 < stats.recent_review_count ∨
          stats.rating_trend < -2))) ∧
    (determine_severity stats = .medium ↔
      (¬(5 < stats.review_velocity ∨ 20 < stats.recent_review_count) ∧
        ¬(3 < stats.review_velocity ∨ 10 < stats.recent_review_count ∨
          stats.rating_trend < -2) ∧
        (5 ≤ stats.recent_review_count ∨ 3 < stats.suspicious_review_count))) ∧
    (determine_severity stats = .low ↔
      (¬(5 < stats.review_velocity ∨ 20 < stats.recent_review_count) ∧
        ¬(3 < stats.review_velocity ∨ 10 < stats.recent_review_count ∨
          stats.rating_trend < -2) ∧
        ¬(5 ≤ stats.recent_review_count ∨ 3 < stats.suspicious_review_count))) := by
  by_cases hA : 5 < stats.review_velocity ∨ 20 < stats.recent_review_count
  · unfold determine_severity
    rw [if_pos hA]
    exact ⟨by simp [hA], by simp [hA], by simp [hA], by simp [hA]⟩
  · by_cases hB : 3 < stats.review_velocity ∨ 10 < stats.recent_review_count ∨
        stats.rating_trend < -2
    · unfold determine_severity
      rw [if_neg hA, if_pos hB]
      exact ⟨by simp [hA], by simp [hA, hB], by simp [hB], by simp [hB]⟩
    · by_cases hC : 5 ≤ stats.recent_review_count ∨ 3 < stats.suspicious_review_count
      · unfold determine_severity
        rw [if_neg hA, if_neg hB, if_pos hC]
        exact ⟨by simp [hA], by simp [hB], by simp [hA, hB, hC], by simp [hC]⟩
      · unfold determine_severity
        rw [if_neg hA, if_neg hB, if_neg hC]
        exact ⟨by simp [hA], by simp [hB], by simp [hC], by simp [hA, hB, hC]⟩

/-- C7: for two snapshots agreeing on `recent_review_count`, `rating_trend`
and `suspicious_review_count`, a larger `review_velocity` never yields a
smaller severity rank. -/
theorem determine_severity_velocity_monotone (s1 s2 : BusinessStats)
    (hc : s1.recent_review_count = s2.recent_review_count)
    (ht : s1.rating_trend = s2.rating_trend)
    (hs : s1.suspicious_review_count = s2.suspicious_review_count)
    (hv : s1.review_velocity ≤ s2.review_velocity) :
    severityRank (determine_severity s1) ≤ severityRank (determine_severity s2) := by
  have hcrit : (5 < s1.review_velocity ∨ 20 < s1.recent_review_count) →
      (5 < s2.review_velocity ∨ 20 < s2.recent_review_count) := by
    rintro (h | h)
    · exact Or.inl (lt_of_lt_of_le h hv)
    · exact Or.inr (hc ▸ h)
  have hhigh : (3 < s1.review_velocity ∨ 10 < s1.recent_review_count ∨
      s1.rating_trend < -2) →
      (3 < s2.review_velocity ∨ 10 < s2.recent_review_count ∨
        s2.rating_trend < -2) := by
    rintro (h | h | h)
    · exact Or.inl (lt_of_lt_of_le h hv)
    · exact Or.inr (Or.inl (hc ▸ h))
    · exact Or.inr (Or.inr (ht ▸ h))
  have hmed : (5 ≤ s1.recent_review_count ∨ 3 < s1.suspicious_review_count) →
      (5 ≤ s2.recent_review_count ∨ 3 < s2.suspicious_review_count) := by
    rintro (h | h)
    · exact Or.inl (hc ▸ h)
    · exact Or.inr (hs ▸ h)
  by_cases hA : 5 < s1.review_velocity ∨ 20 < s1.recent_review_count
  · have hA2 := hcrit hA
    unfold determine_severity
    rw [if_pos hA, if_pos hA2]
  · by_cases hB : 3 < s1.review_velocity ∨ 10 < s1.recent_review_count ∨
        s1.rating_trend < -2
    · have hB2 := hhigh hB
      unfold determine_severity
      by_cases hA2 : 5 < s2.review_velocity ∨ 20 < s2.recent_review_count
      · rw [if_neg hA, if_pos hB, if_pos hA2]
        decide
      · rw [if_neg hA, if_pos hB, if_neg hA2, if_pos hB2]
    · by_cases hC : 5 ≤ s1.recent_review_count ∨ 3 < s1.suspicious_review_count
      · have hC2 := hmed hC
        unfold determine_severity
        rw [if_neg hA, if_neg hB, if_pos hC]
        by_cases hA2 : 5 < s2.review_velocity ∨ 20 < s2.recent_review_count
        · rw [if_pos hA2]
          decide
        · by_cases hB2 : 3 < s2.review_velocity ∨ 10 < s2.recent_review_count ∨
              s2.rating_trend < -2
          · rw [if_neg hA2, if_pos hB2]
            decide
          · rw [if_neg hA2, if_neg hB2, if_pos hC2]
      · unfold determine_severity
        rw [if_neg hA, if_neg hB, if_neg hC]
        exact Nat.zero_le _

/-- Characterization of `get_incident` when the incidents index exists. -/
theorem get_incident_eq (store : Store) (docs : List Incident) (iid : String)
    (hidx : store.incidents = some docs) :
    get_incident store iid =
      match docs.find? (fun d => d.incident_id == iid) with
      | some d => .ok d
      | none => .error (.notFound ("Incident " ++ iid ++ " not found")) := by
  unfold get_incident
  rw [hidx]

/-- Witness for `determine_severity_velocity_monotone` at the spec's B1
snapshot and a slowed-down variant. -/
theorem determine_severity_velocity_monotone_witness :
    severityRank (determine_severity statsB1slow) ≤
      severityRank (determine_severity statsB1) :=
  determine_severity_velocity_monotone statsB1slow statsB1 rfl rfl rfl (by decide)

/-- C9 counterexample: the business of `storeC9` is already protected with
`protected_since = 1000`, yet a repeat `protect_business` call at time 2000
overwrites `protected_since` to 2000. -/
theorem protect_business_resets_clock :
    bizC9.rating_protected = true ∧
    bizC9.protected_since = some 1000 ∧
    (protect_business storeC9 "b1" 2000).1.businesses.map (fun b => b.protected_since) =
      [some 2000] :=
  ⟨rfl, rfl, rfl⟩

/-- C9 amended: `protect_business` reports whether the business document
exists, and unconditionally overwrites the protection fields of the target
business — `protected_since` is set to the current time also when the
business is already protected, so the protection clock is reset on every
repeat call. -/
theorem protect_business_always_overwrites (store : Store) (bid : String) (now : Nat) :
    (protect_business store bid now).2 =
      store.businesses.any (fun b => b.business_id == bid) ∧
    ∀ b ∈ store.businesses, b.business_id = bid →
      { b with
          rating_protected := true
          protection_reason := some "review_fraud_detected"
          protected_since := some now } ∈ (protect_business store bid now).1.businesses := by
  constructor
  · unfold protect_business
    split <;> simp_all
  · intro b hb hbid
    have hany : store.businesses.any (fun x => x.business_id == bid) = true :=
      List.any_eq_true.mpr ⟨b, hb, by simp [hbid]⟩
    unfold protect_business
    rw [if_pos hany]
    exact List.mem_map.mpr ⟨b, hb, by simp [hbid]⟩

/-- Witness for `protect_business_always_overwrites` on the already-protected
business of `storeC9`. -/
theorem protect_business_always_overwrites_witness :
    { bizC9 with
        rating_protected := true
        protection_reason := some "review_fraud_detected"
        protected_since := some 2000 } ∈
      (protect_business storeC9 "b1" 2000).1.businesses :=
  (protect_business_always_overwrites storeC9 "b1" 2000).2 bizC9
    (List.mem_singleton.mpr rfl) rfl

/-- C5 counterexample: resolving the already-resolved incident of `storeC5`
(resolved at time 200) again at time 300 succeeds but overwrites
`resolved_at` with 300. -/
theorem resolve_overwrites_resolved_at :
    incC5.status = .resolved ∧
    incC5.resolved_at = some 200 ∧
    resolve_incident storeC5 "inc_1" (some "confirmed_attack") 300 =
      .ok ({ storeC5 with incidents := some [{ incC5 with resolved_at := some 300 }] },
        { incC5 with resolved_at := some 300 }) ∧
    (some 300 : Option Nat) ≠ some 200 :=
  ⟨rfl, rfl, rfl, by decide⟩

/-- C5 amended: resolving an already-resolved incident is not an error — the
call succeeds and the status stays `resolved` — but `resolved_at` is
overwritten with the time of the repeat call rather than left unchanged. -/
theorem resolve_already_resolved_succeeds (store : Store) (docs : List Incident)
    (inc : Incident) (incident_id : String) (res : Option String) (now : Nat)
    (hidx : store.incidents = some docs)
    (hfind : docs.find? (fun d => d.incident_id == incident_id) = some inc)
    (hres : inc.status = .resolved) :
    ∃ p, resolve_incident store incident_id res now = .ok p ∧
      p.2.status = .resolved ∧ p.2.resolved_at = some now := by
  have h1 : get_incident store incident_id = .ok inc := by
    rw [get_incident_eq store docs incident_id hidx, hfind]
  unfold resolve_incident
  rw [h1]
  exact ⟨_, rfl, rfl, rfl⟩

/-- Witness for `resolve_already_resolved_succeeds` on `storeC5`. -/
theorem resolve_already_resolved_succeeds_witness :
    ∃ p, resolve_incident storeC5 "inc_1" none 300 = .ok p ∧
      p.2.status = .resolved ∧ p.2.resolved_at = some 300 :=
  resolve_already_resolved_succeeds storeC5 [incC5] incC5 "inc_1" none 300 rfl rfl rfl

/-- The hold query reads only fields `holdStamp` does not touch. -/
theorem holdQueryMatches_holdStamp (r : Review) (bid : String) (cutoff now : Nat) :
    holdQueryMatches (holdStamp now r) bid cutoff = holdQueryMatches r bid cutoff :=
  rfl

/-- Holding does not change which reviews the hold query matches, so a second
pass counts the same documents again. -/
theorem countP_holdMap (bid : String) (cutoff now : Nat) (l : List Review) :
    (l.map (fun r => if holdQueryMatches r bid cutoff then holdStamp now r else r)).countP
        (fun r => holdQueryMatches r bid cutoff) =
      l.countP (fun r => holdQueryMatches r bid cutoff) := by
  induction l with
  | nil => rfl
  | cons r tl ih =>
      by_cases h : holdQueryMatches r bid cutoff
      · simp [List.countP_cons, h, ih, holdQueryMatches_holdStamp]
      · simp [List.countP_cons, h, ih]

/-- A later hold pass overwrites the stamps of an earlier one
(last-write-wins on `held_at`). -/
theorem holdMap_override (bid : String) (cutoff now1 now2 : Nat) (l : List Review) :
    ((l.map (fun r => if holdQueryMatches r bid cutoff then holdStamp now1 r else r)).map
        (fun r => if holdQueryMatches r bid cutoff then holdStamp now2 r else r)) =
      l.map (fun r => if holdQueryMatches r bid cutoff then holdStamp now2 r else r) := by
  induction l with
  | nil => rfl
  | cons r tl ih =>
      by_cases h : holdQueryMatches r bid cutoff
      · rw [List.map_cons, if_pos h, List.map_cons, holdQueryMatches_holdStamp,
          if_pos h, ih, List.map_cons, if_pos h]
        rfl
      · rw [List.map_cons, if_neg h, List.map_cons, ih, List.map_cons]

/-- C4 counterexample: `storeC4` holds a single review that is already in
held status (`held_at = 5000`); a hold pass at time 7200 over the 1h window
matches it again, counts it as updated (1, not 0), and overwrites `held_at`
to 7200. -/
theorem hold_touches_already_held :
    heldReviewC4.status = "held" ∧
    heldReviewC4.held_at = some 5000 ∧
    (hold_suspicious_reviews storeC4 "b1" 7200 1).2 = 1 ∧
    (hold_suspicious_reviews storeC4 "b1" 7200 1).1.reviews.map (fun r => r.held_at) =
      [some 7200] ∧
    (1 : Nat) ≠ 0 ∧ (some 7200 : Option Nat) ≠ some 5000 :=
  ⟨rfl, rfl, rfl, rfl, by decide, by decide⟩

/-- C4 amended: the hold query has no status filter, so it matches every
recent low-star review of the business regardless of prior status; running
the hold action twice over the same business and window updates and counts
the same reviews again — the second run returns the first run's count (not
0) and rewrites the same stamps. -/
theorem hold_suspicious_reviews_rerun (store : Store) (bid : String) (now hours : Nat) :
    (hold_suspicious_reviews (hold_suspicious_reviews store bid now hours).1 bid now hours).2 =
      (hold_suspicious_reviews store bid now hours).2 ∧
    (hold_suspicious_reviews (hold_suspicious_reviews store bid now hours).1 bid now hours).1 =
      (hold_suspicious_reviews store bid now hours).1 := by
  constructor
  · exact countP_holdMap bid (now - hours * 3600) now store.reviews
  · exact congrArg (fun rs => { store with reviews := rs })
      (holdMap_override bid (now - hours * 3600) now now store.reviews)

/-- `protect_business` never touches the incidents index. -/
theorem protect_business_incidents (store : Store) (bid : String) (now : Nat) :
    (protect_business store bid now).1.incidents = store.incidents := by
  unfold protect_business
  split <;> rfl

/-- `hold_suspicious_reviews` never touches the incidents index. -/
theorem hold_incidents (store : Store) (bid : String) (now hours : Nat) :
    (hold_suspicious_reviews store bid now hours).1.incidents = store.incidents :=
  rfl

/-- C6 counterexample: the incident of `storeC6` carries the creation-time
entry "Auto-detected by monitoring system" in `response_actions`; after
`execute_response_actions` the list is exactly this run's tags — the prior
entry is gone, not preserved. -/
theorem execute_response_discards_prior_actions :
    incC6.response_actions = ["Auto-detected by monitoring system"] ∧
    ((execute_response_actions storeC6 "b1" "inc_1" 500).1.incidents.getD []).map
        (fun d => d.response_actions) = [["business_protected"]] ∧
    "Auto-detected by monitoring system" ∉ (["business_protected"] : List String) :=
  ⟨rfl, rfl, by decide⟩

/-- C6 amended: `execute_response_actions` writes this run's outcome tags as
the incident's entire `response_actions` list (overwriting, not appending to,
whatever was recorded before) and stamps `response_executed_at = now`; every
other incident document is untouched. -/
theorem execute_response_actions_replaces (store : Store) (docs : List Incident)
    (bid iid : String) (now : Nat) (hidx : store.incidents = some docs) :
    ∃ acts, (execute_response_actions store bid iid now).2.actions = acts ∧
      (execute_response_actions store bid iid now).1.incidents =
        some (docs.map (fun d =>
          if d.incident_id == iid then
            { d with response_actions := acts, response_executed_at := some now }
          else d)) := by
  refine ⟨_, rfl, ?_⟩
  simp only [execute_response_actions, mapIncidents]
  rw [hold_incidents, protect_business_incidents, hidx]

/-- Witness for `execute_response_actions_replaces` on `storeC6`. -/
theorem execute_response_actions_replaces_witness :
    ∃ acts, (execute_response_actions storeC6 "b1" "inc_1" 500).2.actions = acts ∧
      (execute_response_actions storeC6 "b1" "inc_1" 500).1.incidents =
        some ([incC6].map (fun d =>
          if d.incident_id == "inc_1" then
            { d with response_actions := acts, response_executed_at := some 500 }
          else d)) :=
  execute_response_actions_replaces storeC6 [incC6] "b1" "inc_1" 500 rfl

/-- `check_existing_open_incident` on a successful search just runs the
dedup lookup. -/
theorem check_existing_ok (docs : List Incident) (bid : String) :
    check_existing_open_incident (.ok docs) bid = .ok (findOpenIncident docs bid) :=
  rfl

/-- The dedup filter selects nothing when no document belongs to the
business. -/
theorem filterOpen_nil {docs : List Incident} {bid : String}
    (h : ∀ d ∈ docs, d.business_id ≠ bid) :
    docs.filter (fun d => d.business_id == bid && isOpenStatus d.status) = [] := by
  induction docs with
  | nil => rfl
  | cons a tl ih =>
      have ha : (a.business_id == bid) = false := by
        simp only [beq_eq_false_iff_ne, ne_eq]
        exact h a (List.mem_cons_self a tl)
      rw [List.filter_cons]
      simp only [ha, Bool.false_and, if_neg]
      exact ih (fun d hd => h d (List.mem_cons_of_mem a hd))

/-- No document of the business means no open incident is found. -/
theorem findOpenIncident_none {docs : List Incident} {bid : String}
    (h : ∀ d ∈ docs, d.business_id ≠ bid) :
    findOpenIncident docs bid = none := by
  unfold findOpenIncident
  rw [filterOpen_nil h]
  rfl

/-- Appending a single open incident of the business behind unrelated
documents makes it the dedup lookup's result. -/
theorem findOpenIncident_append (docs : List Incident) (bid : String) (inc : Incident)
    (h : ∀ d ∈ docs, d.business_id ≠ bid) (hbiz : inc.business_id = bid)
    (hopen : isOpenStatus inc.status = true) :
    findOpenIncident (docs ++ [inc]) bid = some inc := by
  unfold findOpenIncident
  rw [List.filter_append, filterOpen_nil h, List.nil_append, List.filter_cons]
  simp only [hbiz, beq_self_eq_true, hopen, Bool.and_self, if_pos]
  rfl

/-- A fresh incident id occurs nowhere in the existing documents. -/
theorem any_fresh_false {docs : List Incident} {iid : String}
    (h : ∀ d ∈ docs, d.incident_id ≠ iid) :
    docs.any (fun d => d.incident_id == iid) = false := by
  rw [List.any_eq_false]
  intro d hd
  simp only [beq_eq_false_iff_ne, ne_eq, Bool.not_eq_true]
  exact h d hd

/-- Updating by an id that occurs nowhere leaves the documents unchanged. -/
theorem map_fresh_id {docs : List Incident} {iid : String} (f : Incident → Incident)
    (h : ∀ d ∈ docs, d.incident_id ≠ iid) :
    docs.map (fun d => if d.incident_id == iid then f d else d) = docs := by
  induction docs with
  | nil => rfl
  | cons a tl ih =>
      have ha : (a.incident_id == iid) = false := by
        simp only [beq_eq_false_iff_ne, ne_eq]
        exact h a (List.mem_cons_self a tl)
      rw [List.map_cons, ha]
      simp only [Bool.false_eq_true, if_neg, if_false]
      rw [ih (fun d hd => h d (List.mem_cons_of_mem a hd))]

/-- Filtering by a business id that occurs nowhere yields nothing. -/
theorem filter_bid_nil {docs : List Incident} {bid : String}
    (h : ∀ d ∈ docs, d.business_id ≠ bid) :
    docs.filter (fun d => d.business_id == bid) = [] := by
  induction docs with
  | nil => rfl
  | cons a tl ih =>
      have ha : (a.business_id == bid) = false := by
        simp only [beq_eq_false_iff_ne, ne_eq]
        exact h a (List.mem_cons_self a tl)
      rw [List.filter_cons]
      simp only [ha, if_neg]
      exact ih (fun d hd => h d (List.mem_cons_of_mem a hd))

/-- `es.index` of a fresh incident id appends the document (provisioning the
index if it was missing). -/
theorem indexIncident_fresh (store : Store) (docs : List Incident) (inc : Incident)
    (hidx : store.incidents = some docs)
    (h : ∀ d ∈ docs, d.incident_id ≠ inc.incident_id) :
    indexIncident store inc = { store with incidents := some (docs ++ [inc]) } := by
  unfold indexIncident
  rw [hidx]
  simp only [Option.getD_some, any_fresh_false h, Bool.false_eq_true, if_false]

/-- `mapIncidents` over an existing incidents index maps the documents. -/
theorem mapIncidents_some (store : Store) (docs : List Incident)
    (f : Incident → Incident) (hidx : store.incidents = some docs) :
    mapIncidents store f = { store with incidents := some (docs.map f) } := by
  unfold mapIncidents
  rw [hidx]

/-- `update_incident_metrics` addressed at the appended incident rewrites
exactly its metrics and `last_updated`, leaving the other documents and every
other field alone. -/
theorem update_metrics_append (store : Store) (docs : List Incident) (inc : Incident)
    (stats : BusinessStats) (now : Nat)
    (hidx : store.incidents = some (docs ++ [inc]))
    (hfresh : ∀ d ∈ docs, d.incident_id ≠ inc.incident_id) :
    update_incident_metrics store inc.incident_id stats now =
      { store with incidents := some (docs ++
          [{ inc with
              metrics := refreshMetrics inc.metrics stats
              last_updated := some now }]) } := by
  unfold update_incident_metrics
  rw [mapIncidents_some store _ _ hidx, List.map_append, map_fresh_id _ hfresh,
    List.map_cons]
  simp only [beq_self_eq_true, if_pos, List.map_nil]

/-- `create_incident_from_attack` on a store with no document of the
business: a fresh incident is built and appended. -/
theorem create_new (store : Store) (docs : List Incident) (stats : BusinessStats)
    (now : Nat) (iid : String) (auto : Bool)
    (hidx : store.incidents = some docs)
    (hno : ∀ d ∈ docs, d.business_id ≠ stats.business_id)
    (hfresh : ∀ d ∈ docs, d.incident_id ≠ iid) :
    create_incident_from_attack store stats now iid auto =
      .ok ({ store with
              incidents := some (docs ++ [mkIncidentFromStats stats iid now auto]) },
        some (mkIncidentFromStats stats iid now auto)) := by
  have hs : searchIncidents store = .ok docs := by
    unfold searchIncidents
    rw [hidx]
  have hchk : check_existing_open_incident (searchIncidents store) stats.business_id =
      .ok none := by
    rw [hs, check_existing_ok, findOpenIncident_none hno]
  simp only [create_incident_from_attack]
  rw [hchk, indexIncident_fresh store docs _ hidx hfresh]

/-- `create_incident_from_attack` when the dedup lookup finds an open
incident: only that incident's metrics are refreshed and `None` is
returned. -/
theorem create_existing (store : Store) (stats : BusinessStats) (now : Nat)
    (iid : String) (auto : Bool) (inc : Incident)
    (hchk : check_existing_open_incident (searchIncidents store) stats.business_id =
      .ok (some inc)) :
    create_incident_from_attack store stats now iid auto =
      .ok (update_incident_metrics store inc.incident_id stats now, none) := by
  simp only [create_incident_from_attack]
  rw [hchk]

/-- C10: the dedup lookup treats a missing incidents collection as "no open
incident" instead of raising, while any other lookup failure propagates to
the caller; consequently the first-ever detection on a deployment without an
incidents index proceeds: the incident is created and the collection is
provisioned with it on the write path. -/
theorem missing_index_first_detection (msg : String) (store : Store)
    (stats : BusinessStats) (now : Nat) (iid : String)
    (hidx : store.incidents = none) :
    check_existing_open_incident (.error .index_not_found) stats.business_id = .ok none ∧
    check_existing_open_incident (.error (.other msg)) stats.business_id =
      .error (.other msg) ∧
    create_incident_from_attack store stats now iid true =
      .ok ({ store with incidents := some [mkIncidentFromStats stats iid now true] },
        some (mkIncidentFromStats stats iid now true)) := by
  refine ⟨rfl, rfl, ?_⟩
  simp only [create_incident_from_attack, searchIncidents, indexIncident]
  rw [hidx]
  rfl

/-- Witness for `missing_index_first_detection` on an empty deployment and
the B1 snapshot. -/
theorem missing_index_first_detection_witness :
    create_incident_from_attack { incidents := none, businesses := [], reviews := [] }
        statsB1 100 "inc_a" true =
      .ok ({ ({ incidents := none, businesses := [], reviews := [] } : Store) with
              incidents := some [mkIncidentFromStats statsB1 "inc_a" 100 true] },
        some (mkIncidentFromStats statsB1 "inc_a" 100 true)) :=
  (missing_index_first_detection "boom"
    { incidents := none, businesses := [], reviews := [] } statsB1 100 "inc_a" rfl).2.2

/-- C2: calling the ledger's create-or-update twice in succession for the
same business with an attack-positive snapshot creates exactly one incident.
The first call creates and returns it (is-new), the second call returns
`none` (not new) and rewrites only the incident's `metrics` (and the
`last_updated` stamp of that refresh): the final store holds exactly one
incident document for the business, still with `status = detected` and the
original `detected_at`, and with metrics refreshed from the second
snapshot. -/
theorem create_or_update_idempotent (store : Store) (docs : List Incident)
    (stats stats2 : BusinessStats) (now1 now2 : Nat) (id1 id2 : String)
    (hidx : store.incidents = some docs)
    (hno : ∀ d ∈ docs, d.business_id ≠ stats.business_id)
    (hfresh : ∀ d ∈ docs, d.incident_id ≠ id1)
    (hbid : stats2.business_id = stats.business_id)
    (hatk : stats.is_under_attack = true) :
    create_incident_from_attack store stats now1 id1 true =
      .ok ({ store with
              incidents := some (docs ++ [mkIncidentFromStats stats id1 now1 true]) },
        some (mkIncidentFromStats stats id1 now1 true)) ∧
    create_incident_from_attack
        { store with
            incidents := some (docs ++ [mkIncidentFromStats stats id1 now1 true]) }
        stats2 now2 id2 true =
      .ok ({ store with
              incidents := some (docs ++ [updatedIncidentDoc stats stats2 id1 now1 now2]) },
        none) ∧
    (docs ++ [updatedIncidentDoc stats stats2 id1 now1 now2]).filter
        (fun d => d.business_id == stats.business_id) =
      [updatedIncidentDoc stats stats2 id1 now1 now2] ∧
    (updatedIncidentDoc stats stats2 id1 now1 now2).status = .detected ∧
    (updatedIncidentDoc stats stats2 id1 now1 now2).detected_at = now1 ∧
    (updatedIncidentDoc stats stats2 id1 now1 now2).metrics =
      refreshMetrics (incidentMetricsOfStats stats) stats2 := by
  have h1 := create_new store docs stats now1 id1 true hidx hno hfresh
  have hchk2 : check_existing_open_incident
      (searchIncidents { store with
        incidents := some (docs ++ [mkIncidentFromStats stats id1 now1 true]) })
      stats2.business_id = .ok (some (mkIncidentFromStats stats id1 now1 true)) := by
    have hs : searchIncidents { store with
        incidents := some (docs ++ [mkIncidentFromStats stats id1 now1 true]) } =
        .ok (docs ++ [mkIncidentFromStats stats id1 now1 true]) := rfl
    rw [hs, check_existing_ok, hbid, findOpenIncident_append docs stats.business_id
      (mkIncidentFromStats stats id1 now1 true) hno rfl rfl]
  have h2 := create_existing
    { store with incidents := some (docs ++ [mkIncidentFromStats stats id1 now1 true]) }
    stats2 now2 id2 true (mkIncidentFromStats stats id1 now1 true) hchk2
  have h3 : update_incident_metrics
      { store with incidents := some (docs ++ [mkIncidentFromStats stats id1 now1 true]) }
      (mkIncidentFromStats stats id1 now1 true).incident_id stats2 now2 =
      { store with
        incidents := some (docs ++ [updatedIncidentDoc stats stats2 id1 now1 now2]) } :=
    update_metrics_append _ docs (mkIncidentFromStats stats id1 now1 true) stats2 now2
      rfl hfresh
  refine ⟨h1, h2.trans (by rw [h3]), ?_, rfl, rfl, rfl⟩
  rw [List.filter_append, filter_bid_nil hno, List.nil_append, List.filter_cons]
  have hc : ((updatedIncidentDoc stats stats2 id1 now1 now2).business_id ==
      stats.business_id) = true := beq_self_eq_true stats.business_id
  simp only [hc, if_pos, List.filter_nil]

/-- Witness for `create_or_update_idempotent`: the B1 scenario against an
empty incidents index, re-detected with the same snapshot. -/
theorem create_or_update_idempotent_witness :
    create_incident_from_attack storeEmptyIncidents statsB1 100 "inc_a" true =
      .ok ({ storeEmptyIncidents with
              incidents := some ([] ++ [mkIncidentFromStats statsB1 "inc_a" 100 true]) },
        some (mkIncidentFromStats statsB1 "inc_a" 100 true)) ∧
    create_incident_from_attack
        { storeEmptyIncidents with
            incidents := some ([] ++ [mkIncidentFromStats statsB1 "inc_a" 100 true]) }
        statsB1 200 "inc_b" true =
      .ok ({ storeEmptyIncidents with
              incidents := some ([] ++ [updatedIncidentDoc statsB1 statsB1 "inc_a" 100 200]) },
        none) ∧
    ([] ++ [updatedIncidentDoc statsB1 statsB1 "inc_a" 100 200]).filter
        (fun d => d.business_id == statsB1.business_id) =
      [updatedIncidentDoc statsB1 statsB1 "inc_a" 100 200] ∧
    (updatedIncidentDoc statsB1 statsB1 "inc_a" 100 200).status = .detected ∧
    (updatedIncidentDoc statsB1 statsB1 "inc_a" 100 200).detected_at = 100 ∧
    (updatedIncidentDoc statsB1 statsB1 "inc_a" 100 200).metrics =
      refreshMetrics (incidentMetricsOfStats statsB1) statsB1 :=
  create_or_update_idempotent storeEmptyIncidents [] statsB1 statsB1 100 200 "inc_a" "inc_b"
    rfl (by simp) (by simp) rfl rfl

/-- A business whose evaluation fails is skipped with no effect at all. -/
theorem evalOneBusiness_fails (fails : String → Bool) (mkId : String → String)
    (now hours : Nat) (st : SweepState) (b : String) (h : fails b = true) :
    evalOneBusiness fails mkId now hours st b = st := by
  unfold evalOneBusiness
  rw [if_pos h]

/-- C8 amended: a failure while evaluating one business is caught and does
not abort the remaining candidates, and the endpoint always assembles a
report — but failed businesses are silently skipped rather than enumerated:
the sweep behaves exactly as if the failing candidates were absent from the
loop, except that `businesses_checked` still counts them. -/
theorem detect_attacks_failure_isolated (store : Store) (cands : List String)
    (now hours : Nat) (fails : String → Bool) (mkId : String → String) :
    detect_attacks store cands now hours fails mkId =
      ((detect_attacks store (cands.filter (fun b => !fails b)) now hours fails mkId).1,
       { (detect_attacks store (cands.filter (fun b => !fails b)) now hours fails mkId).2 with
           businesses_checked := cands.length }) := by
  have key : ∀ (l : List String) (st : SweepState),
      l.foldl (evalOneBusiness fails mkId now hours) st =
        (l.filter (fun b => !fails b)).foldl (evalOneBusiness fails mkId now hours) st := by
    intro l
    induction l with
    | nil =>
        intro st
        rfl
    | cons b tl ih =>
        intro st
        rw [List.foldl_cons, List.filter_cons]
        by_cases h : fails b
        · have hnb : (!fails b) = false := by rw [h, Bool.not_true]
          rw [hnb, if_neg (by decide), evalOneBusiness_fails fails mkId now hours st b h]
          exact ih st
        · have hnb : (!fails b) = true := by
            revert h
            cases fails b <;> simp
          rw [hnb, if_pos rfl, List.foldl_cons]
          exact ih (evalOneBusiness fails mkId now hours st b)
  simp only [detect_attacks]
  rw [key]

/-- C8 counterexample: in `storeC8`, candidate "A" failing is
indistinguishable in the returned report from candidate "A" being benignly
absent — the two sweeps return identical reports (and identical stores), so
the report does not enumerate the failure; candidate "B" is still evaluated
either way. -/
theorem detect_attacks_failures_silent :
    (fun b => b == "A") "A" = true ∧
    findBusiness storeC8 "A" = none ∧
    detect_attacks storeC8 ["A", "B"] 7200 1 (fun b => b == "A") (fun b => "inc_" ++ b) =
      detect_attacks storeC8 ["A", "B"] 7200 1 (fun _ => false) (fun b => "inc_" ++ b) :=
  ⟨rfl, rfl, rfl⟩

end ReviewWorkshop
